import Mathlib

/-!
Verification of the gogo embedded-database layer: the schema-migration
engine (`internal/db/migrations.go`), the export/import manager, the
backup manager and the health checker.  Go strings are modelled as
`String` / `List Char`, the SQLite store as explicit state values, and
transactional execution as all-or-nothing state passing: a function that
runs a transaction returns either the committed state or the unchanged
pre-transaction state together with an error.
-/

namespace Gogo

/-! ### Text utilities (models of the `strings` package functions used) -/

/-- Whitespace recognizer matching `strings.TrimSpace` on the ASCII
whitespace characters that occur in this code base. -/
def isWS (c : Char) : Bool :=
  c = ' ' || c = '\t' || c = '\n' || c = '\r' || c = '\x0b' || c = '\x0c'

/-- `strings.TrimSpace` on a character list. -/
def trimChars (s : List Char) : List Char :=
  ((s.dropWhile isWS).reverse.dropWhile isWS).reverse

/-- `strings.HasPrefix`: does `s` start with `pre`? -/
def lcStarts : List Char → List Char → Bool
  | [], _ => true
  | _ :: _, [] => false
  | p :: ps, c :: cs => p = c && lcStarts ps cs

/-- `strings.Split s sep` for a one-character separator: `n` separators
yield `n + 1` fragments, empty fragments included. -/
def splitOnChar (sep : Char) : List Char → List (List Char)
  | [] => [[]]
  | c :: cs =>
    match splitOnChar sep cs with
    | [] => [[c]]
    | h :: t => if c = sep then [] :: h :: t else (c :: h) :: t

/-- `strings.ReplaceAll str "\x27" "\x27\x27"`: double every single
quote (the SQL-escaping step of `exportTableData`). -/
def escQuote : List Char → List Char
  | [] => []
  | c :: cs => if c = '\x27' then c :: c :: escQuote cs else c :: escQuote cs

/-- Join strings with the separator `", "` (the column/value joiner of
`exportTableData`). -/
def commaSep : List String → String
  | [] => ""
  | [s] => s
  | s :: rest => s ++ ", " ++ commaSep rest

/-! ### Migration engine (`internal/db/migrations.go`) -/

/-- `Migration` from `migrations.go`: the in-memory registration of one
schema-change unit. The derived `Applied`/`AppliedAt` display fields are
omitted; applied state is read from the ledger. -/
structure Migration where
  ID : String
  Description : String
  UpSQL : String
  DownSQL : String
deriving DecidableEq, Repr

/-- One row of the persistent `schema_migrations` ledger table
(`id, description, applied_at, checksum`); `applied_at` is modelled as a
natural-number timestamp. -/
structure LedgerRow where
  id : String
  description : String
  checksum : String
  appliedAt : Nat
deriving DecidableEq, Repr

/-- The store as the migration engine sees it: an abstract user-schema
state `σ` (mutated by executing DDL bodies) plus the ledger table. -/
structure MigDB (σ : Type) where
  schema : σ
  ledger : List LedgerRow
deriving DecidableEq, Repr

/-- `generateChecksum` from `migrations.go`: trim the body; `"empty"`
for an empty result, otherwise `length ++ "-" ++ first ++ last`
character.  (Go indexes bytes; on the ASCII migration bodies used here
bytes and characters coincide.) -/
def generateChecksum (content : String) : String :=
  match h : trimChars content.data with
  | [] => "empty"
  | c :: cs =>
    String.mk ((Nat.repr (c :: cs).length).data ++ '-' :: c :: [(c :: cs).getLast (by simp)])

/-- `ApplyMigration`: reject an empty forward body; otherwise run the
forward body and the ledger `INSERT` inside one transaction.  Any
failure (failed `BeginTx`, failed body, the ledger `INSERT` hitting the
`id` primary key, failed commit) aborts the transaction: the returned
state is the unchanged input state together with the error.  `exec`
models `tx.ExecContext` on the forward body, `beginErr`/`commitErr`
model `BeginTx`/`Commit` failures, and `now` is the `CURRENT_TIMESTAMP`
default filled into `applied_at`. -/
def applyMigration {σ : Type} (beginErr commitErr : Option String) (now : Nat)
    (exec : String → σ → Except String σ) (db : MigDB σ) (mig : Migration) :
    MigDB σ × Option String :=
  if mig.UpSQL = "" then
    (db, some ("migration " ++ mig.ID ++ " has no up SQL"))
  else
    match beginErr with
    | some e => (db, some ("failed to begin transaction: " ++ e))
    | none =>
      match exec mig.UpSQL db.schema with
      | .error e => (db, some ("failed to execute migration " ++ mig.ID ++ ": " ++ e))
      | .ok schema' =>
        if db.ledger.any (fun r => r.id == mig.ID) then
          (db, some ("failed to record migration " ++ mig.ID ++
            ": UNIQUE constraint failed: schema_migrations.id"))
        else
          match commitErr with
          | some e => (db, some ("failed to commit migration " ++ mig.ID ++ ": " ++ e))
          | none =>
            ({ schema := schema',
               ledger := db.ledger ++
                 [⟨mig.ID, mig.Description, generateChecksum mig.UpSQL, now⟩] }, none)

/-- `RollbackMigration`: reject an empty reverse body; otherwise run the
reverse body and the ledger `DELETE ... WHERE id = ?` inside one
transaction, all-or-nothing as in `applyMigration`. -/
def rollbackMigration {σ : Type} (exec : String → σ → Except String σ)
    (db : MigDB σ) (mig : Migration) : MigDB σ × Option String :=
  if mig.DownSQL = "" then
    (db, some ("migration " ++ mig.ID ++ " has no down SQL"))
  else
    match exec mig.DownSQL db.schema with
    | .error e => (db, some ("failed to rollback migration " ++ mig.ID ++ ": " ++ e))
    | .ok schema' =>
      ({ schema := schema',
         ledger := db.ledger.filter (fun r => !(r.id == mig.ID)) }, none)

/-- Order on migrations used by the `sort.Slice` calls: ascending
lexicographic order of `ID`. -/
def migLE (a b : Migration) : Prop := a.ID ≤ b.ID

instance : DecidableRel migLE := fun a b => inferInstanceAs (Decidable (a.ID ≤ b.ID))

instance : IsTotal Migration migLE := ⟨fun a b => le_total a.ID b.ID⟩

instance : IsTrans Migration migLE := ⟨fun _ _ _ hab hbc => le_trans hab hbc⟩

/-- `GetPendingMigrations`: the registered migrations whose id has no
ledger row, sorted ascending by id.  `registry` is the in-memory
registration map in registration order (its iteration order is
irrelevant after sorting); `appliedIds` are the ids present in the
ledger, as read by `GetAppliedMigrations`. -/
def getPendingMigrations (registry : List Migration) (appliedIds : List String) :
    List Migration :=
  List.insertionSort migLE (registry.filter (fun m => !(appliedIds.contains m.ID)))

/-- `GetLastAppliedMigration`'s ledger query
`SELECT ... ORDER BY applied_at DESC LIMIT 1`: a row with maximal
`applied_at`, `none` on an empty ledger. -/
def lastApplied : List LedgerRow → Option LedgerRow
  | [] => none
  | r :: rs =>
    match lastApplied rs with
    | none => some r
    | some m => some (if r.appliedAt < m.appliedAt then m else r)

/-- `RollbackLast`: no-op success on an empty ledger; otherwise look up
the most recently applied id in the registry (error if it is no longer
registered) and roll it back. -/
def rollbackLast {σ : Type} (exec : String → σ → Except String σ)
    (registry : List Migration) (db : MigDB σ) : MigDB σ × Option String :=
  match lastApplied db.ledger with
  | none => (db, none)
  | some row =>
    match registry.find? (fun m => m.ID == row.id) with
    | none => (db, some ("migration " ++ row.id ++ " not found in registered migrations"))
    | some mig => rollbackMigration exec db mig

/-- Migration `001_initial_schema` of `RegisterCoreSchemas`, body text
verbatim from the Go raw-string literals. -/
def mig001 : Migration :=
  { ID := "001_initial_schema"
    Description := "Create initial core tables for templates and blueprints"
    UpSQL := "-- This migration ensures core tables exist\n\t\t -- (Schema may already be created by schema.go, but this ensures consistency)"
    DownSQL := "-- Rollback would drop tables, but we don\x27t want to accidentally destroy data\n\t\t -- SELECT \x27Rollback not implemented for initial schema\x27 as warning;" }

/-- Migration `002_add_indexes` of `RegisterCoreSchemas`. -/
def mig002 : Migration :=
  { ID := "002_add_indexes"
    Description := "Add database indexes for improved query performance"
    UpSQL := "CREATE INDEX IF NOT EXISTS idx_templates_name ON templates(name);\n\t\t CREATE INDEX IF NOT EXISTS idx_blueprints_name ON blueprints(name);\n\t\t CREATE INDEX IF NOT EXISTS idx_blueprints_stack ON blueprints(stack);"
    DownSQL := "DROP INDEX IF EXISTS idx_templates_name;\n\t\t DROP INDEX IF EXISTS idx_blueprints_name;\n\t\t DROP INDEX IF EXISTS idx_blueprints_stack;" }

/-- Migration `003_add_audit_trail` of `RegisterCoreSchemas`. -/
def mig003 : Migration :=
  { ID := "003_add_audit_trail"
    Description := "Add audit trail tables for tracking changes"
    UpSQL := "CREATE TABLE IF NOT EXISTS audit_log (\n\t\t\tid INTEGER PRIMARY KEY AUTOINCREMENT,\n\t\t\ttable_name VARCHAR(50) NOT NULL,\n\t\t\trecord_id VARCHAR(255) NOT NULL,\n\t\t\taction VARCHAR(10) NOT NULL, -- INSERT, UPDATE, DELETE\n\t\t\told_values TEXT,\n\t\t\tnew_values TEXT,\n\t\t\tchanged_at TIMESTAMP DEFAULT CURRENT_TIMESTAMP,\n\t\t\tchanged_by VARCHAR(255)\n\t\t);\n\t\tCREATE INDEX IF NOT EXISTS idx_audit_log_table ON audit_log(table_name);\n\t\tCREATE INDEX IF NOT EXISTS idx_audit_log_changed_at ON audit_log(changed_at);"
    DownSQL := "DROP TABLE IF EXISTS audit_log;" }

/-- Migration `004_add_metadata_columns` of `RegisterCoreSchemas`: its
reverse body is a comment plus a bare `SELECT ... as warning` — SQLite
executes it successfully without changing the schema. -/
def mig004 : Migration :=
  { ID := "004_add_metadata_columns"
    Description := "Add created_at and updated_at columns to core tables"
    UpSQL := "-- Add metadata columns if they don\x27t exist\n\t\t ALTER TABLE templates ADD COLUMN created_at TIMESTAMP DEFAULT CURRENT_TIMESTAMP;\n\t\t ALTER TABLE templates ADD COLUMN updated_at TIMESTAMP DEFAULT CURRENT_TIMESTAMP;\n\t\t ALTER TABLE blueprints ADD COLUMN created_at TIMESTAMP DEFAULT CURRENT_TIMESTAMP;\n\t\t ALTER TABLE blueprints ADD COLUMN updated_at TIMESTAMP DEFAULT CURRENT_TIMESTAMP;"
    DownSQL := "-- Note: SQLite doesn\x27t support DROP COLUMN, so we can\x27t easily roll this back\n\t\t SELECT \x27Cannot rollback metadata columns in SQLite\x27 as warning;" }

/-- `RegisterCoreSchemas`: the fixed bootstrap registration set, in
registration order. -/
def registerCoreSchemas : List Migration := [mig001, mig002, mig003, mig004]

/-! ### Export/import manager (`export.go`, `src/unnamed/part_008`)

The destination store is modelled as a list of `(table name, row count)`
pairs: the round-trip and dry-run claims are about row counts per table,
and the statements generated by `exportSQL` only create tables and
insert single rows. -/

/-- A user table of the source store as `exportSQL` reads it: its name,
its `sqlite_master` creation statement (which carries no trailing
semicolon), its column names and its rows. -/
inductive SQLVal
  | null
  | intV (n : Int)
  | textV (s : String)
deriving DecidableEq, Repr

structure SrcTable where
  name : String
  schemaSQL : String
  cols : List String
  rows : List (List SQLVal)
deriving Repr

/-- Value rendering of `exportTableData`: `NULL` literally, strings
single-quoted with embedded quotes doubled, other values via `%v`. -/
def renderVal : SQLVal → String
  | .null => "NULL"
  | .intV n => toString n
  | .textV s => String.mk ('\x27' :: (escQuote s.data ++ ['\x27']))

/-- One `INSERT` statement line written by `exportTableData`. -/
def insertLine (t : SrcTable) (row : List SQLVal) : String :=
  "INSERT INTO " ++ t.name ++ " (" ++ commaSep t.cols ++ ") VALUES (" ++
    commaSep (row.map renderVal) ++ ");\n"

/-- The text `exportSQL` emits for one table: the
`-- Schema for table` block when `includeSchema`, the
`-- Data for table` block when `includeData`, then the per-table blank
line. -/
def tableText (includeSchema includeData : Bool) (t : SrcTable) : String :=
  (if includeSchema then
    "-- Schema for table " ++ t.name ++ "\n" ++ t.schemaSQL ++ ";\n\n"
   else "") ++
  (if includeData then
    "-- Data for table " ++ t.name ++ "\n" ++
      String.join (t.rows.map (insertLine t))
   else "") ++ "\n"

/-- `exportSQL`: header comments (with the generation timestamp `ts`),
then each table's text in catalog order. -/
def exportSQLText (ts : String) (includeSchema includeData : Bool)
    (tables : List SrcTable) : String :=
  "-- gogo database export\n-- Generated on: " ++ ts ++ "\n-- Format: SQL\n\n" ++
    String.join (tables.map (tableText includeSchema includeData))

/-- Destination-store lookup: row count of a table, 0 when the table
does not exist. -/
def rowCount (st : List (String × Nat)) (name : String) : Nat :=
  match st.find? (fun p => p.1 == name) with
  | some p => p.2
  | none => 0

/-- Add one row to an existing table, `none` when the table is absent. -/
def bumpRow : List (String × Nat) → String → Option (List (String × Nat))
  | [], _ => none
  | (n, k) :: rest, name =>
    if n == name then some ((n, k + 1) :: rest)
    else (bumpRow rest name).map (fun r => (n, k) :: r)

/-- SQLite execution of the statement shapes that occur in SQL dumps:
`CREATE TABLE name ...` creates an empty table (error if it exists),
`INSERT INTO name ...` adds one row (error if the table is missing —
SQLite's `no such table`), anything else is rejected. -/
def execStmt (st : List (String × Nat)) (stmt : List Char) :
    Except String (List (String × Nat)) :=
  if lcStarts "CREATE TABLE ".data stmt then
    let name := String.mk ((stmt.drop 13).takeWhile (fun c => !(c = ' ' || c = '(')))
    if st.any (fun p => p.1 == name) then .error ("table " ++ name ++ " already exists")
    else .ok (st ++ [(name, 0)])
  else if lcStarts "INSERT INTO ".data stmt then
    let name := String.mk ((stmt.drop 12).takeWhile (fun c => !(c = ' ' || c = '(')))
    match bumpRow st name with
    | some st' => .ok st'
    | none => .error ("no such table: " ++ name)
  else .error "near: syntax error"

/-- The statement loop of `importSQL`: for each fragment, trim it, skip
it when it is empty or starts with `--`, otherwise execute it inside
the transaction, stopping at the first failure. Returns the committed
store and the number of executed statements. -/
def runStmts : List (String × Nat) → Nat → List (List Char) →
    Except String (List (String × Nat) × Nat)
  | st, n, [] => .ok (st, n)
  | st, n, f :: fs =>
    if trimChars f = [] || lcStarts "--".data (trimChars f) then runStmts st n fs
    else
      match execStmt st (trimChars f) with
      | .error e =>
        .error ("failed to execute statement: " ++ e ++ "\nStatement: " ++
          String.mk (trimChars f))
      | .ok st' => runStmts st' (n + 1) fs

/-- Result of `importSQL`: the store after the call, the count a dry
run reports, the number of statements a real run executed, and the
returned error if any. -/
structure SQLImportResult where
  store : List (String × Nat)
  dryRunCount : Option Nat
  executed : Nat
  error : Option String
deriving DecidableEq, Repr

/-- `importSQL`: split the file on `;`; a dry run reports
`len(statements) - 1` and stops; a real run executes the non-skipped
fragments inside one transaction, leaving the store unchanged when any
statement fails. -/
def importSQL (dryRun : Bool) (content : String) (db : List (String × Nat)) :
    SQLImportResult :=
  let statements := splitOnChar ';' content.data
  if dryRun then ⟨db, some (statements.length - 1), 0, none⟩
  else
    match runStmts db 0 statements with
    | .error e => ⟨db, none, 0, some e⟩
    | .ok (st, n) => ⟨st, none, n, none⟩

/-- The skip test of the `importSQL` loop, as a fragment selector:
`none` when the trimmed fragment is empty or starts with `--`,
otherwise the trimmed fragment that gets executed. -/
def keepFrag (f : List Char) : Option (List Char) :=
  if trimChars f = [] || lcStarts "--".data (trimChars f) then none
  else some (trimChars f)

/-- Spec-side fragment filter for the amended import claim: the
fragments `importSQL` actually executes are those whose trimmed text is
non-empty and does not start with `--`. -/
def executedFragments (content : String) : List (List Char) :=
  (splitOnChar ';' content.data).filterMap keepFrag

/-- Straight-line execution of a statement list inside one transaction
(no skipping): fold `execStmt`, stop at the first failure with the
`importSQL` error wrapping. -/
def execAllStmts : List (String × Nat) → Nat → List (List Char) →
    Except String (List (String × Nat) × Nat)
  | st, n, [] => .ok (st, n)
  | st, n, t :: ts =>
    match execStmt st t with
    | .error e =>
      .error ("failed to execute statement: " ++ e ++ "\nStatement: " ++ String.mk t)
    | .ok st' => execAllStmts st' (n + 1) ts

/-- Modelled from the spec: a fragment "consists solely of comments"
when every one of its lines is blank or is a `--` line comment.  (Used
only to state the original wording of the import-skip claim; the code
itself has no such notion.) -/
def soleComments (frag : List Char) : Bool :=
  (splitOnChar '\n' frag).all (fun line =>
    trimChars line = [] || lcStarts "--".data (trimChars line))

/-- The JSON export metadata (`ExportMetadata`). -/
structure ExportMetadata where
  Version : String
  TableCount : Nat
  RowCount : Nat
deriving DecidableEq, Repr

/-- The decoded JSON bundle (`ExportedData`).  Each table is reduced to
its row multiplicity: `importTableRows` in the source is a stub that
writes nothing and reports `len(rows)`, so row contents affect no
modelled operation. -/
structure ExportedData where
  Metadata : ExportMetadata
  Tables : List (String × Nat)
deriving DecidableEq, Repr

/-- Result of `importJSON`: the store, the table/row counts a dry run
reports, the row total a real run reports, and the error if any. -/
structure JSONImportResult where
  store : List (String × Nat)
  dryRunTables : Option Nat
  dryRunRows : Option Nat
  imported : Nat
  error : Option String
deriving DecidableEq, Repr

/-- `importJSON` on an already-decoded bundle: optional version
validation, then either the dry-run report (metadata counts, no
writes) or the real import — whose per-table worker `importTableRows`
is a stub returning `len(rows)` without touching the store. -/
def importJSON (validate dryRun : Bool) (data : ExportedData)
    (db : List (String × Nat)) : JSONImportResult :=
  if validate && data.Metadata.Version == "" then
    ⟨db, none, none, 0,
      some "import data validation failed: import data missing version information"⟩
  else if dryRun then
    ⟨db, some data.Metadata.TableCount, some data.Metadata.RowCount, 0, none⟩
  else
    ⟨db, none, none, (data.Tables.map Prod.snd).sum, none⟩

/-! ### Backup manager (`backup.go`, `src/unnamed/part_009`) -/

/-- `BackupInfo` as returned by `GetBackupInfo` (path, size and the
compression probe; the modification time is omitted). -/
structure BackupInfo where
  Path : String
  Size : Nat
  IsCompressed : Bool
deriving DecidableEq, Repr

/-- The two-byte header read of `isCompressedFile`: `file.Read` on a
2-byte buffer returns the available bytes with no error when at least
one byte exists (the unread buffer byte stays zero), and `io.EOF` on an
empty file. -/
def readTwoBytes : List Nat → Except String (Nat × Nat)
  | [] => .error "failed to read file header: EOF"
  | [b] => .ok (b, 0)
  | b0 :: b1 :: _ => .ok (b0, b1)

/-- `isCompressedFile`: gzip iff the first two bytes are `0x1f 0x8b`. -/
def isCompressedFile (file : List Nat) : Except String Bool :=
  match readTwoBytes file with
  | .error e => .error e
  | .ok (b0, b1) => .ok (b0 == 0x1f && b1 == 0x8b)

/-- `GetBackupInfo` on an existing file with the given contents. -/
def getBackupInfo (path : String) (file : List Nat) : Except String BackupInfo :=
  match isCompressedFile file with
  | .error e => .error e
  | .ok c => .ok ⟨path, file.length, c⟩

/-! ### Health checker (`health.go`, inside `internal/validate/validator_test.go`) -/

/-- The three status strings an individual check can carry. -/
inductive HStatus
  | ok
  | warning
  | error
deriving DecidableEq, Repr, Fintype

/-- Severity order of the claim: `ERROR > WARNING > OK`. -/
def sev : HStatus → Nat
  | .ok => 0
  | .warning => 1
  | .error => 2

/-- The worse of two statuses. -/
def worse (a b : HStatus) : HStatus := if sev a < sev b then b else a

/-- Maximum-severity status of a list of check statuses. -/
def maxStatus (l : List HStatus) : HStatus := l.foldl worse .ok

/-- The final status loop of `CheckHealth`, starting from the status
accumulated so far: the first `ERROR` wins and breaks; a `WARNING`
upgrades an `OK`. -/
def overallFrom : HStatus → List HStatus → HStatus
  | s, [] => s
  | s, c :: cs =>
    if c = .error then .error
    else if c = .warning && s = .ok then overallFrom .warning cs
    else overallFrom s cs

/-- The status-relevant output of `CheckHealth`: the overall status and
the statuses of the check results included in the report. -/
structure HealthReport where
  status : HStatus
  checks : List HStatus
deriving DecidableEq, Repr

/-- `CheckHealth` as a function of the eight individual check statuses
(connectivity, integrity, version, journal mode, table count, row
count, free space, performance): an `ERROR` connectivity check returns
early with only that check in the report; otherwise all eight checks
are reported, the running status is `ERROR` when integrity failed, and
the final loop derives the overall status. -/
def checkHealth (conn integ ver wal tabs rows free perf : HStatus) : HealthReport :=
  if conn = .error then ⟨.error, [conn]⟩
  else
    let checks := [conn, integ, ver, wal, tabs, rows, free, perf]
    let s1 := if integ = .error then HStatus.error else HStatus.ok
    ⟨overallFrom s1 checks, checks⟩

/-! ### Storage handle transactions (`db.go`, inside
`internal/blueprints/blueprint_test.go`) -/

/-- Outcome of the function passed to `WithTx`, acting on the
transaction's working state: a normal return with the new working state
and an optional error, or a panic with a payload. -/
inductive FnOut (σ : Type)
  | ret (s : σ) (e : Option String)
  | panicked (s : σ) (payload : String)

/-- Outcome of `WithTx` itself: a return (with the store state after
the call and the returned error) or a propagated panic (with the store
state it leaves behind). -/
inductive TxOut (σ : Type)
  | done (s : σ) (e : Option String)
  | panicked (s : σ) (payload : String)
deriving DecidableEq

/-- `WithTx`: begin a transaction (failure returns the wrapped error),
run `fn` on the working state; on a panic roll back and re-panic, on an
error roll back and return that same error, and commit only when `fn`
returns nil (a commit failure also leaves the store unchanged). -/
def withTx {σ : Type} (beginErr commitErr : Option String) (db : σ)
    (fn : σ → FnOut σ) : TxOut σ :=
  match beginErr with
  | some e => .done db (some ("failed to begin transaction: " ++ e))
  | none =>
    match fn db with
    | .panicked _ p => .panicked db p
    | .ret _ (some e) => .done db (some e)
    | .ret s none =>
      match commitErr with
      | some e => .done db (some e)
      | none => .done s none

/-! ### Helper lemmas -/

/-- The elements kept by filtering with the negated predicate are the
ones the predicate drops. -/
theorem length_filter_not {α : Type} (p : α → Bool) (l : List α) :
    (l.filter (fun a => !(p a))).length = l.length - (l.filter p).length := by
  induction l with
  | nil => rfl
  | cons a t ih =>
    have hle := List.length_filter_le p t
    by_cases h : p a <;> simp [List.filter_cons, h, ih] <;> omega

/-- `List.contains` on strings decides membership. -/
theorem contains_eq_false_iff (l : List String) (x : String) :
    l.contains x = false ↔ x ∉ l := by
  rw [← Bool.not_eq_true, not_iff_not, List.contains_iff_exists_mem_beq]
  constructor
  · rintro ⟨b, hb, hbeq⟩
    rw [show x = b from by simpa using hbeq]
    exact hb
  · intro hx
    exact ⟨x, hx, by simp⟩

/-- `lastApplied` returns `none` exactly on the empty ledger. -/
theorem lastApplied_eq_none_iff (l : List LedgerRow) :
    lastApplied l = none ↔ l = [] := by
  cases l with
  | nil => simp [lastApplied]
  | cons a t =>
    simp only [lastApplied]
    cases lastApplied t <;> simp

/-- A `some` result of `lastApplied` is a ledger row of maximal
`applied_at`. -/
theorem lastApplied_max (l : List LedgerRow) :
    ∀ r, lastApplied l = some r → r ∈ l ∧ ∀ s ∈ l, s.appliedAt ≤ r.appliedAt := by
  induction l with
  | nil => intro r h; simp [lastApplied] at h
  | cons a t ih =>
    intro r h
    cases hl : lastApplied t with
    | none =>
      have ht : t = [] := (lastApplied_eq_none_iff t).mp hl
      subst ht
      simp only [lastApplied] at h
      injection h with h
      subst h
      refine ⟨List.mem_cons_self a [], ?_⟩
      intro s hs
      rw [List.mem_singleton.mp hs]
    | some m =>
      obtain ⟨hm, hmax⟩ := ih m hl
      simp only [lastApplied, hl] at h
      by_cases hc : a.appliedAt < m.appliedAt
      · rw [if_pos hc] at h
        injection h with h; subst h
        refine ⟨List.mem_cons_of_mem a hm, ?_⟩
        intro s hs
        rcases List.mem_cons.mp hs with hs | hs
        · subst hs; exact le_of_lt hc
        · exact hmax s hs
      · rw [if_neg hc] at h
        injection h with h; subst h
        refine ⟨List.mem_cons_self a t, ?_⟩
        intro s hs
        rcases List.mem_cons.mp hs with hs | hs
        · subst hs; exact le_refl _
        · exact le_trans (hmax s hs) (le_of_not_lt hc)

/-! ### Claim theorems -/

/-- Claim C1. For every migration with a non-empty forward body,
`ApplyMigration` executes the forward body and the ledger insert
(id, description, checksum derived from the forward body) as a single
atomic unit: if any step fails, neither the schema change nor the
ledger row persists and an error is returned; if it succeeds, exactly
one ledger row for that id is present. -/
theorem c1_applyMigration_atomic {σ : Type} (beginErr commitErr : Option String)
    (now : Nat) (exec : String → σ → Except String σ) (db : MigDB σ)
    (mig : Migration) (hne : mig.UpSQL ≠ "") :
    (∀ e, (applyMigration beginErr commitErr now exec db mig).2 = some e →
       applyMigration beginErr commitErr now exec db mig = (db, some e)) ∧
    ((applyMigration beginErr commitErr now exec db mig).2 = none →
       ∃ schema', exec mig.UpSQL db.schema = .ok schema' ∧
         applyMigration beginErr commitErr now exec db mig =
           ({ schema := schema',
              ledger := db.ledger ++
                [⟨mig.ID, mig.Description, generateChecksum mig.UpSQL, now⟩] }, none) ∧
         ((applyMigration beginErr commitErr now exec db mig).1.ledger.filter
             (fun r => r.id == mig.ID)).length = 1) := by
  unfold applyMigration
  rw [if_neg hne]
  cases beginErr with
  | some e =>
    exact ⟨fun e h => congrArg (Prod.mk db) h, fun h => Option.noConfusion h⟩
  | none =>
    cases hx : exec mig.UpSQL db.schema with
    | error e =>
      exact ⟨fun e h => congrArg (Prod.mk db) h, fun h => Option.noConfusion h⟩
    | ok schema' =>
      dsimp only
      by_cases hany : db.ledger.any (fun r => r.id == mig.ID)
      · rw [if_pos hany]
        exact ⟨fun e h => congrArg (Prod.mk db) h, fun h => Option.noConfusion h⟩
      · rw [if_neg hany]
        cases commitErr with
        | some e =>
          exact ⟨fun e h => congrArg (Prod.mk db) h, fun h => Option.noConfusion h⟩
        | none =>
          refine ⟨fun e h => Option.noConfusion h, fun _ => ⟨schema', rfl, rfl, ?_⟩⟩
          have hnone : db.ledger.filter (fun r => r.id == mig.ID) = [] := by
            rw [List.filter_eq_nil_iff]
            intro r hr hpr
            exact hany (List.any_eq_true.mpr ⟨r, hr, hpr⟩)
          show ((db.ledger ++
              ([⟨mig.ID, mig.Description, generateChecksum mig.UpSQL, now⟩] :
                List LedgerRow)).filter (fun r => r.id == mig.ID)).length = 1
          simp [List.filter_append, hnone]

/-- A concrete migration, execution oracle and store used by the
witnesses below. -/
def demoMig : Migration :=
  { ID := "001_users", Description := "create users",
    UpSQL := "CREATE TABLE users (id INTEGER)", DownSQL := "DROP TABLE users;" }

def demoExec : String → Nat → Except String Nat := fun _ n => .ok (n + 1)

def demoDB : MigDB Nat := { schema := 0, ledger := [] }

/-- Witness for C1 at a concrete input. -/
theorem c1_witness :
    demoMig.UpSQL ≠ "" ∧
    ((∀ e, (applyMigration none none 7 demoExec demoDB demoMig).2 = some e →
        applyMigration none none 7 demoExec demoDB demoMig = (demoDB, some e)) ∧
     ((applyMigration none none 7 demoExec demoDB demoMig).2 = none →
        ∃ schema', demoExec demoMig.UpSQL demoDB.schema = .ok schema' ∧
          applyMigration none none 7 demoExec demoDB demoMig =
            ({ schema := schema',
               ledger := demoDB.ledger ++
                 [⟨demoMig.ID, demoMig.Description, generateChecksum demoMig.UpSQL, 7⟩] },
             none) ∧
          ((applyMigration none none 7 demoExec demoDB demoMig).1.ledger.filter
              (fun r => r.id == demoMig.ID)).length = 1)) :=
  ⟨by decide, c1_applyMigration_atomic none none 7 demoExec demoDB demoMig (by decide)⟩

/-- Claim C5. The code violates the claim: the reverse body of
`004_add_metadata_columns` is a comment plus a bare
`SELECT ... as warning`, which executes successfully without touching
the schema (hypothesis `hexec`), so `RollbackMigration` reports
success and deletes the migration's ledger row while the metadata
columns remain — instead of surfacing the error the claim requires. -/
theorem c5_rollback_mig004_silent_success {σ : Type}
    (exec : String → σ → Except String σ) (db : MigDB σ)
    (hexec : exec mig004.DownSQL db.schema = .ok db.schema) :
    mig004.DownSQL ≠ "" ∧
    rollbackMigration exec db mig004 =
      ({ schema := db.schema,
         ledger := db.ledger.filter (fun r => !(r.id == "004_add_metadata_columns")) },
       none) := by
  refine ⟨by decide, ?_⟩
  unfold rollbackMigration
  rw [if_neg (by decide), hexec]
  rfl

/-- Witness for C5: with the applied `004` row in the ledger and a
schema-preserving executor, rollback reports success and the ledger row
is gone. -/
theorem c5_witness :
    (fun (_ : String) (s : Nat) => Except.ok (ε := String) s) mig004.DownSQL 0 = .ok 0 ∧
    rollbackMigration (fun _ s => Except.ok s)
        ({ schema := 0,
           ledger := [⟨"004_add_metadata_columns",
             "Add created_at and updated_at columns to core tables", "x", 4⟩] } : MigDB Nat)
        mig004 =
      ({ schema := 0, ledger := [] }, none) := by
  refine ⟨rfl, ?_⟩
  have h := c5_rollback_mig004_silent_success (σ := Nat) (fun _ s => Except.ok s)
    { schema := 0,
      ledger := [⟨"004_add_metadata_columns",
        "Add created_at and updated_at columns to core tables", "x", 4⟩] } rfl
  exact h.2.trans (by decide)

/-- Claim C6. `RollbackLast` selects an applied migration of maximal
ledger timestamp; with an empty ledger it is a successful no-op; when
the selected id is not registered it fails with the not-found error and
changes nothing; otherwise it rolls the registered definition back. -/
theorem c6_rollbackLast_correct {σ : Type} (exec : String → σ → Except String σ)
    (registry : List Migration) (db : MigDB σ) :
    (db.ledger = [] → rollbackLast exec registry db = (db, none)) ∧
    (∀ row, lastApplied db.ledger = some row →
       row ∈ db.ledger ∧ (∀ s ∈ db.ledger, s.appliedAt ≤ row.appliedAt) ∧
       (registry.find? (fun m => m.ID == row.id) = none →
          rollbackLast exec registry db =
            (db, some ("migration " ++ row.id ++ " not found in registered migrations"))) ∧
       (∀ mig, registry.find? (fun m => m.ID == row.id) = some mig →
          rollbackLast exec registry db = rollbackMigration exec db mig)) := by
  constructor
  · intro h
    simp only [rollbackLast, (lastApplied_eq_none_iff db.ledger).mpr h]
  · intro row hrow
    obtain ⟨hmem, hmax⟩ := lastApplied_max db.ledger row hrow
    refine ⟨hmem, hmax, ?_, ?_⟩
    · intro hfind
      simp only [rollbackLast, hrow, hfind]
    · intro mig hfind
      simp only [rollbackLast, hrow, hfind]

/-- Witness for C6: empty ledger is a no-op success, and an applied id
that is no longer registered yields the not-found error. -/
theorem c6_witness :
    rollbackLast demoExec [] demoDB = (demoDB, none) ∧
    rollbackLast demoExec []
        ({ schema := 0, ledger := [⟨"001_users", "create users", "c", 1⟩] } : MigDB Nat) =
      ({ schema := 0, ledger := [⟨"001_users", "create users", "c", 1⟩] },
       some "migration 001_users not found in registered migrations") := by
  constructor
  · exact (c6_rollbackLast_correct demoExec [] demoDB).1 rfl
  · exact (((c6_rollbackLast_correct demoExec []
      { schema := 0, ledger := [⟨"001_users", "create users", "c", 1⟩] }).2
        ⟨"001_users", "create users", "c", 1⟩ rfl).2.2.1 rfl)

/-- Claim C10. `WithTx`: an error from `fn` rolls the transaction back
and is returned unchanged with the store untouched; a panic from `fn`
rolls back and re-panics; a successful (nil-error) result is the only
way the transaction commits. -/
theorem c10_withTx_semantics {σ : Type} (beginErr commitErr : Option String)
    (db : σ) (fn : σ → FnOut σ) :
    (∀ s e, fn db = .ret s (some e) →
       withTx none commitErr db fn = .done db (some e)) ∧
    (∀ s p, fn db = .panicked s p →
       withTx none commitErr db fn = .panicked db p) ∧
    (∀ s, withTx beginErr commitErr db fn = .done s none →
       beginErr = none ∧ commitErr = none ∧ fn db = .ret s none) := by
  refine ⟨?_, ?_, ?_⟩
  · intro s e h
    simp only [withTx, h]
  · intro s p h
    simp only [withTx, h]
  · intro s h
    unfold withTx at h
    cases beginErr with
    | some e => simp at h
    | none =>
      cases hfn : fn db with
      | panicked s' p => rw [hfn] at h; simp at h
      | ret s' e' =>
        cases e' with
        | some e => rw [hfn] at h; simp at h
        | none =>
          rw [hfn] at h
          cases commitErr with
          | some e => simp at h
          | none =>
            refine ⟨rfl, rfl, ?_⟩
            injection h with h1 h2
            rw [h1]

/-- Witness for C10: a function that returns an error gets that same
error back with the store unchanged. -/
theorem c10_witness :
    withTx none none (0 : Nat) (fun n => FnOut.ret (n + 1) (some "boom")) =
      .done 0 (some "boom") :=
  (c10_withTx_semantics none none 0 (fun n => FnOut.ret (n + 1) (some "boom"))).1
    1 "boom" rfl

/-- Claim C2. `GetPendingMigrations` returns exactly the
registered-but-unapplied migrations — `N − K` of them when `K` of the
`N` registered ids are recorded in the ledger — sorted strictly
ascending by id. -/
theorem c2_getPendingMigrations_correct (registry : List Migration)
    (appliedIds : List String) (hnd : (registry.map Migration.ID).Nodup) :
    (getPendingMigrations registry appliedIds).length =
      registry.length -
        (registry.filter (fun m => appliedIds.contains m.ID)).length ∧
    (∀ m, m ∈ getPendingMigrations registry appliedIds ↔
       m ∈ registry ∧ m.ID ∉ appliedIds) ∧
    List.Sorted (fun a b : Migration => a.ID < b.ID)
      (getPendingMigrations registry appliedIds) := by
  have hperm : List.Perm (getPendingMigrations registry appliedIds)
      (registry.filter (fun m => !(appliedIds.contains m.ID))) :=
    List.perm_insertionSort migLE _
  refine ⟨?_, ?_, ?_⟩
  · rw [getPendingMigrations, List.length_insertionSort]
    exact length_filter_not (fun m => appliedIds.contains m.ID) registry
  · intro m
    rw [getPendingMigrations, List.mem_insertionSort, List.mem_filter]
    have hb : (!(appliedIds.contains m.ID)) = true ↔
        appliedIds.contains m.ID = false := by
      cases appliedIds.contains m.ID <;> simp
    rw [hb, contains_eq_false_iff]
  · have hsorted : List.Sorted migLE (getPendingMigrations registry appliedIds) :=
      List.sorted_insertionSort migLE _
    have hsub : List.Sublist
        ((registry.filter (fun m => !(appliedIds.contains m.ID))).map Migration.ID)
        (registry.map Migration.ID) :=
      (List.filter_sublist registry).map Migration.ID
    have hnd2 : ((getPendingMigrations registry appliedIds).map Migration.ID).Nodup := by
      rw [(hperm.map Migration.ID).nodup_iff]
      exact hnd.sublist hsub
    have hne : (getPendingMigrations registry appliedIds).Pairwise
        (fun a b => a.ID ≠ b.ID) := List.pairwise_map.mp hnd2
    exact (List.Pairwise.and hsorted hne).imp (fun h => lt_of_le_of_ne h.1 h.2)

/-- Concrete registry for the C2 witness: three migrations registered
out of id order, one of them applied. -/
def regDemo : List Migration :=
  [⟨"002_posts", "posts", "u2", "d2"⟩,
   ⟨"001_users", "users", "u1", "d1"⟩,
   ⟨"003_tags", "tags", "u3", "d3"⟩]

/-- Witness for C2 at a concrete input. -/
theorem c2_witness :
    (regDemo.map Migration.ID).Nodup ∧
    ((getPendingMigrations regDemo ["002_posts"]).length =
       regDemo.length -
         (regDemo.filter
           (fun m => (["002_posts"] : List String).contains m.ID)).length ∧
     (∀ m, m ∈ getPendingMigrations regDemo ["002_posts"] ↔
        m ∈ regDemo ∧ m.ID ∉ (["002_posts"] : List String)) ∧
     List.Sorted (fun a b : Migration => a.ID < b.ID)
       (getPendingMigrations regDemo ["002_posts"])) :=
  ⟨by decide, c2_getPendingMigrations_correct regDemo ["002_posts"] (by decide)⟩

/-- A one-table source store with two rows, used to exercise the SQL
round trip. -/
def demoTable : SrcTable :=
  { name := "t", schemaSQL := "CREATE TABLE t (x INTEGER)", cols := ["x"],
    rows := [[.intV 1], [.intV 2]] }

/-- The SQL dump `exportSQL` produces for `demoTable` (schema and data
included). -/
def demoExport : String := exportSQLText "2026-01-01 00:00:00" true true [demoTable]

set_option maxRecDepth 40000 in
/-- Claim C3 fails on the code: importing the export of a one-table,
two-row store into a fresh store returns an error and reproduces zero
rows.  The importer skips every `;`-fragment whose trimmed text starts
with `--`, which swallows the `CREATE TABLE` statement (preceded in its
fragment by the header and schema comments) and the first `INSERT`
(preceded by the `-- Data for table` comment); the remaining `INSERT`
then fails against the missing table and the transaction is rolled
back. -/
theorem c3_sql_roundtrip_loses_rows :
    demoTable.rows.length = 2 ∧
    (importSQL false demoExport []).error.isSome = true ∧
    (importSQL false demoExport []).store = [] ∧
    rowCount (importSQL false demoExport []).store "t" = 0 := by decide

/-- The C4 counterexample input: a fragment holding a comment line
followed by a real `INSERT` statement. -/
def c4Content : String := "-- note\nINSERT INTO t (x) VALUES (1);"

/-- The first `;`-fragment of `c4Content`. -/
def c4Frag : List Char := "-- note\nINSERT INTO t (x) VALUES (1)".data

set_option maxRecDepth 40000 in
/-- Counterexample to claim C4 as stated: `c4Frag` is neither blank nor
solely comments (it ends in an `INSERT` that would succeed against the
store `[("t", 0)]`), yet `importSQL` skips it — the run succeeds having
executed zero statements and the store is unchanged. -/
theorem c4_counterexample :
    (importSQL false c4Content [("t", 0)]).executed = 0 ∧
    (importSQL false c4Content [("t", 0)]).store = [("t", 0)] ∧
    (importSQL false c4Content [("t", 0)]).error = none ∧
    c4Frag ∈ splitOnChar ';' c4Content.data ∧
    trimChars c4Frag ≠ [] ∧
    soleComments c4Frag = false := by decide

/-- The `importSQL` loop skips a fragment exactly when `keepFrag`
drops it. -/
theorem runStmts_filterMap (fs : List (List Char)) :
    ∀ st n, runStmts st n fs = execAllStmts st n (fs.filterMap keepFrag) := by
  induction fs with
  | nil => intro st n; rfl
  | cons f fs ih =>
    intro st n
    rw [runStmts, List.filterMap_cons, keepFrag]
    by_cases h : trimChars f = [] || lcStarts "--".data (trimChars f)
    · rw [if_pos h, if_pos h]
      exact ih st n
    · rw [if_neg h, if_neg h]
      show _ = execAllStmts st n (trimChars f :: fs.filterMap keepFrag)
      rw [execAllStmts]
      cases hx : execStmt st (trimChars f) with
      | error e => rfl
      | ok st' => exact ih st' (n + 1)

/-- Claim C4, amended: `importSQL` (not dry-run) splits on semicolons,
skips exactly the fragments whose trimmed text is blank or starts with
the comment marker `--` (even when a statement follows the comment in
the same fragment), and executes the remaining fragments in order
inside one transaction, aborting entirely — store unchanged — on the
first failing statement. -/
theorem c4_import_executes_noncomment_fragments (content : String)
    (db : List (String × Nat)) :
    importSQL false content db =
      match execAllStmts db 0 (executedFragments content) with
      | .error e => ⟨db, none, 0, some e⟩
      | .ok (st, n) => ⟨st, none, n, none⟩ := by
  show (match runStmts db 0 (splitOnChar ';' content.data) with
        | .error e => (⟨db, none, 0, some e⟩ : SQLImportResult)
        | .ok (st, n) => ⟨st, none, n, none⟩) = _
  rw [runStmts_filterMap]
  rfl

/-- The C7 counterexample input: a comment-only fragment followed by an
`INSERT`. -/
def c7Content : String := "-- c;INSERT INTO t (x) VALUES (1);"

set_option maxRecDepth 40000 in
/-- Counterexample to claim C7 as stated: on `c7Content`, the SQL
dry run writes nothing but reports 2 statements, while the
corresponding real run executes only 1 — the dry-run count is not the
count the real run would execute. -/
theorem c7_counterexample :
    (importSQL true c7Content [("t", 0)]).store = [("t", 0)] ∧
    (importSQL true c7Content [("t", 0)]).dryRunCount = some 2 ∧
    (importSQL false c7Content [("t", 0)]).executed = 1 ∧
    (importSQL false c7Content [("t", 0)]).error = none ∧
    ¬(2 = 1) := by decide

/-- Claim C7, amended: dry-run import performs zero mutating
operations in both paths; the SQL dry run reports the raw
semicolon-fragment count minus one (which may exceed what a real run
executes, since skipped fragments are counted), and the JSON dry run
reports the file metadata's table/row counts. -/
theorem c7_dryRun_zero_writes (content : String) (db : List (String × Nat))
    (validate : Bool) (data : ExportedData) (db2 : List (String × Nat)) :
    ((importSQL true content db).store = db ∧
     (importSQL true content db).error = none ∧
     (importSQL true content db).dryRunCount =
       some ((splitOnChar ';' content.data).length - 1)) ∧
    ((importJSON validate true data db2).store = db2 ∧
     (validate = false ∨ data.Metadata.Version ≠ "" →
        (importJSON validate true data db2).dryRunTables =
          some data.Metadata.TableCount ∧
        (importJSON validate true data db2).dryRunRows =
          some data.Metadata.RowCount)) := by
  refine ⟨⟨rfl, rfl, rfl⟩, ?_, ?_⟩
  · unfold importJSON
    by_cases h : validate && data.Metadata.Version == ""
    · rw [if_pos h]
    · rw [if_neg h]
      rfl
  · intro h
    have hcond : (validate && data.Metadata.Version == "") = false := by
      rcases h with h | h
      · rw [h]; rfl
      · simp [h]
    simp [importJSON, hcond]

/-- Witness for C7 at a concrete input. -/
theorem c7_witness :
    ((importSQL true "x;" []).store = [] ∧
     (importSQL true "x;" []).error = none ∧
     (importSQL true "x;" []).dryRunCount =
       some ((splitOnChar ';' ("x;").data).length - 1)) ∧
    ((importJSON false true ⟨⟨"1.0", 1, 2⟩, [("t", 2)]⟩ []).store = [] ∧
     (false = false ∨ ("1.0" : String) ≠ "" →
        (importJSON false true ⟨⟨"1.0", 1, 2⟩, [("t", 2)]⟩ []).dryRunTables =
          some 1 ∧
        (importJSON false true ⟨⟨"1.0", 1, 2⟩, [("t", 2)]⟩ []).dryRunRows =
          some 2)) :=
  c7_dryRun_zero_writes "x;" [] false ⟨⟨"1.0", 1, 2⟩, [("t", 2)]⟩ []

/-- Counterexample to claim C8 as stated: on an existing empty file the
header read hits `io.EOF`, so `GetBackupInfo` returns an error instead
of reporting `IsCompressed = false`. -/
theorem c8_counterexample :
    getBackupInfo "backup.db.gz" [] = .error "failed to read file header: EOF" := rfl

/-- Claim C8, amended: on every existing file from which at least one
byte can be read, `GetBackupInfo` succeeds and reports
`IsCompressed = true` exactly when the file's first two bytes are
`0x1f 0x8b` (a one-byte file is never compressed); only these leading
bytes are consulted.  On an empty file it returns a read error. -/
theorem c8_magic_bytes (path : String) (b0 : Nat) (rest : List Nat) :
    (getBackupInfo path (b0 :: rest)).isOk = true ∧
    (∀ info, getBackupInfo path (b0 :: rest) = .ok info →
       (info.IsCompressed = true ↔ (b0 :: rest).take 2 = [0x1f, 0x8b])) := by
  cases rest with
  | nil =>
    refine ⟨rfl, ?_⟩
    intro info h
    injection h with h
    subst h
    simp
  | cons b1 rest2 =>
    refine ⟨rfl, ?_⟩
    intro info h
    injection h with h
    subst h
    simp [List.take]

/-- Witness for C8 at a concrete gzip header. -/
theorem c8_witness :
    (getBackupInfo "backup.gz" [0x1f, 0x8b, 0]).isOk = true ∧
    (∀ info, getBackupInfo "backup.gz" [0x1f, 0x8b, 0] = .ok info →
       (info.IsCompressed = true ↔
          ([0x1f, 0x8b, 0] : List Nat).take 2 = [0x1f, 0x8b])) :=
  c8_magic_bytes "backup.gz" 0x1f [0x8b, 0]

/-- Claim C9. For every combination of individual check statuses, the
overall status `CheckHealth` reports equals the maximum-severity status
among the check results contained in the report
(`ERROR > WARNING > OK`). -/
theorem c9_overall_status_is_max :
    ∀ conn integ ver wal tabs rows free perf : HStatus,
      (checkHealth conn integ ver wal tabs rows free perf).status =
        maxStatus (checkHealth conn integ ver wal tabs rows free perf).checks := by
  decide

end Gogo
